import Mathlib

/-!
Verification of the arithmetic evaluator of `mini_calc` (src/mini_calc/app.py).

The program is a small Tk calculator; its one piece of behavioral logic is the
function `calculate(op)`, which reads the two entry strings, normalizes the
decimal comma (`.replace(",", ".")`), parses both with Python's `float`,
dispatches on the operator string `"+" | "-" | "*" | "/"` (with a
division-by-zero guard and an unknown-operator fallback), and catches the
`ValueError` of a failed parse as the invalid-input result.

Embedding choices:
- The Tk entry contents become explicit string arguments, so `calculate` here
  takes the two operand strings and the operator string; the strings written
  into the result display become the tagged type `EvaluationResult`
  (numeric result, the division-by-zero text, the invalid-input text, the
  unknown-operator fallback text).
- Python floats are modelled at two levels. `PyFloat` carries an exact
  rational for finite values plus the special values `inf`, `ninf` and `nan`,
  with IEEE-style special-value propagation in the operations; `evaluate`
  computes finite arithmetic exactly, which is adequate wherever the values
  involved are exactly representable in binary64. `roundF64` is correct
  rounding of a rational to IEEE-754 binary64 (round to nearest, ties to
  even, overflow to infinity, gradual underflow at scale 2^-1074), and
  `evaluate64` parses and computes with that rounding — on rounded operands
  this is exactly the double arithmetic the source performs, and it is the
  model to consult where a claim's values are not exactly representable.
- `float?` models CPython's `float(str)` parser on ASCII text: surrounding
  whitespace is stripped, underscores are allowed between digits, the literal
  forms `inf`/`infinity`/`nan` (case-insensitive, optionally signed) are
  accepted, and otherwise the usual `digits [. digits] [e [sign] digits]`
  grammar applies.
-/

/-- A Python float value: an exact rational for the finite case, plus the
special values positive infinity, negative infinity and nan. -/
inductive PyFloat where
  | finite (q : ℚ)
  | inf
  | ninf
  | nan
deriving DecidableEq, Repr

namespace PyFloat

/-- Negation of a Python float. -/
def neg : PyFloat → PyFloat
  | finite q => finite (-q)
  | inf => ninf
  | ninf => inf
  | nan => nan

/-- Addition (`a + b` in the source), with IEEE special-value propagation:
nan absorbs, opposite infinities give nan. -/
def add : PyFloat → PyFloat → PyFloat
  | nan, _ => nan
  | _, nan => nan
  | inf, ninf => nan
  | ninf, inf => nan
  | inf, _ => inf
  | _, inf => inf
  | ninf, _ => ninf
  | _, ninf => ninf
  | finite a, finite b => finite (a + b)

/-- Subtraction (`a - b` in the source): addition of the negation, as in IEEE. -/
def sub (a b : PyFloat) : PyFloat := a.add b.neg

/-- Multiplication (`a * b` in the source), with IEEE special-value
propagation: nan absorbs, infinity times zero is nan, otherwise signs combine. -/
def mul : PyFloat → PyFloat → PyFloat
  | nan, _ => nan
  | _, nan => nan
  | finite a, finite b => finite (a * b)
  | inf, finite b => if b = 0 then nan else if 0 < b then inf else ninf
  | ninf, finite b => if b = 0 then nan else if 0 < b then ninf else inf
  | finite a, inf => if a = 0 then nan else if 0 < a then inf else ninf
  | finite a, ninf => if a = 0 then nan else if 0 < a then ninf else inf
  | inf, inf => inf
  | inf, ninf => ninf
  | ninf, inf => ninf
  | ninf, ninf => inf

/-- Division (`a / b` in the source), with IEEE special-value propagation.
In the program this is only ever evaluated under the guard `b == 0` being
false, so the finite-by-zero case (where Python would raise
ZeroDivisionError) is unreachable; it is mapped to nan here. -/
def div : PyFloat → PyFloat → PyFloat
  | nan, _ => nan
  | _, nan => nan
  | finite a, finite b => if b = 0 then nan else finite (a / b)
  | inf, finite b => if 0 ≤ b then inf else ninf
  | ninf, finite b => if 0 ≤ b then ninf else inf
  | finite _, inf => finite 0
  | finite _, ninf => finite 0
  | inf, inf => nan
  | inf, ninf => nan
  | ninf, inf => nan
  | ninf, ninf => nan

/-- The comparison `b == 0` of the source: true exactly on the finite value
zero (in Python, `float("nan") == 0` and `float("inf") == 0` are false, and
`-0.0 == 0` is true; the signed zeros coincide in the rational model). -/
def isZero : PyFloat → Bool
  | finite q => decide (q = 0)
  | _ => false

end PyFloat

/-- The whitespace characters `float(str)` strips from the ends of its ASCII
input: space, tab, newline, carriage return, vertical tab, form feed. -/
def isPyWs (c : Char) : Bool :=
  c == ' ' || c == '\t' || c == '\n' || c == '\r' ||
    c == Char.ofNat 11 || c == Char.ofNat 12

/-- Strip leading and trailing whitespace. -/
def stripWs (cs : List Char) : List Char :=
  ((cs.dropWhile isPyWs).reverse.dropWhile isPyWs).reverse

/-- CPython's underscore rule for numeric literals fed to `float`: every
underscore must stand between two digits. -/
def usOk : List Char → Bool
  | '_' :: _ => false
  | [_, '_'] => false
  | a :: '_' :: b :: rest => a.isDigit && b.isDigit && usOk (b :: rest)
  | _ :: rest => usOk rest
  | [] => true

/-- An optional leading sign: returns (negative?, remaining characters). -/
def takeSign : List Char → Bool × List Char
  | '+' :: rest => (false, rest)
  | '-' :: rest => (true, rest)
  | cs => (false, cs)

/-- The natural number denoted by a list of decimal digits. -/
def digitsVal (ds : List Char) : ℕ :=
  ds.foldl (fun a c => 10 * a + (c.toNat - 48)) 0

/-- Powers of ten, as rationals. -/
def pow10 : ℕ → ℚ
  | 0 => 1
  | n + 1 => 10 * pow10 n

/-- Apply an optional exponent suffix `e [sign] digits` to an already parsed
mantissa; the whole remaining input must be consumed. Input is lowercased. -/
def applyExp (q : ℚ) (cs : List Char) : Option ℚ :=
  match cs with
  | [] => some q
  | 'e' :: rest =>
      let (eneg, rest2) := takeSign rest
      let ds := rest2.takeWhile Char.isDigit
      let rest3 := rest2.dropWhile Char.isDigit
      if ds.isEmpty || !rest3.isEmpty then none
      else some (if eneg then q / pow10 (digitsVal ds) else q * pow10 (digitsVal ds))
  | _ => none

/-- Parse an unsigned numeric literal `digits [. [digits]] [exp]` or
`. digits [exp]` (underscores already removed, input lowercased); at least one
digit must be present in the mantissa and the whole input must be consumed. -/
def numVal? (cs : List Char) : Option ℚ :=
  let ip := cs.takeWhile Char.isDigit
  let rest1 := cs.dropWhile Char.isDigit
  match rest1 with
  | '.' :: rest2 =>
      let fp := rest2.takeWhile Char.isDigit
      let rest3 := rest2.dropWhile Char.isDigit
      if ip.isEmpty && fp.isEmpty then none
      else applyExp ((digitsVal ip : ℚ) + (digitsVal fp : ℚ) / pow10 fp.length) rest3
  | _ =>
      if ip.isEmpty then none
      else applyExp (digitsVal ip : ℚ) rest1

/-- Model of CPython's `float(str)` on ASCII text: strip whitespace, check the
underscore rule and drop underscores, lowercase, take an optional sign, accept
`inf`/`infinity`/`nan`, otherwise parse a numeric literal. `none` models the
ValueError the source catches. -/
def float? (s : String) : Option PyFloat :=
  let cs1 := stripWs s.data
  if !usOk cs1 then none
  else
    let cs2 := (cs1.filter (fun c => c != '_')).map Char.toLower
    let (neg, cs3) := takeSign cs2
    if cs3 = "infinity".data ∨ cs3 = "inf".data then
      some (if neg then PyFloat.ninf else PyFloat.inf)
    else if cs3 = "nan".data then some PyFloat.nan
    else match numVal? cs3 with
      | some q => some (PyFloat.finite (if neg then -q else q))
      | none => none

/-- The normalization `s.replace(",", ".")` of the source: every comma becomes
a period (single-character replacement, hence a character map). -/
def replaceCommas (s : String) : String :=
  String.mk (s.data.map fun c => if c = ',' then '.' else c)

/-- The outcome of one evaluation, as written into the result display:
a numeric result, the division-by-zero text, the invalid-input text
(the caught ValueError), or the unknown-operator fallback text. -/
inductive EvaluationResult where
  | Number (v : PyFloat)
  | DivisionByZero
  | InvalidInput
  | UnknownOperator
deriving DecidableEq, Repr

/-- The operator dispatch of the source: the if/elif chain on the operator
string, with the division-by-zero guard and the unknown-operator fallback. -/
def dispatch (op : String) (a b : PyFloat) : EvaluationResult :=
  if op = "+" then .Number (a.add b)
  else if op = "-" then .Number (a.sub b)
  else if op = "*" then .Number (a.mul b)
  else if op = "/" then
    if b.isZero then .DivisionByZero else .Number (a.div b)
  else .UnknownOperator

/-- The source's `calculate`, with the two entry strings passed explicitly:
normalize both operands, parse both (a failed parse raises ValueError, caught
as the invalid-input result before any dispatch), then dispatch on the
operator string. -/
def calculate (sa sb op : String) : EvaluationResult :=
  match float? (replaceCommas sa), float? (replaceCommas sb) with
  | some a, some b => dispatch op a b
  | _, _ => .InvalidInput

/-- The closed operator enumeration of the specification. -/
inductive Operator where
  | add
  | sub
  | mul
  | div
deriving DecidableEq, Repr

/-- The operator string each button passes to `calculate`. -/
def Operator.symbol : Operator → String
  | .add => "+"
  | .sub => "-"
  | .mul => "*"
  | .div => "/"

/-- The specification's `evaluate(operandA, operandB, operator)`: `calculate`
invoked with the symbol of a closed-enumeration operator. -/
def evaluate (a b : String) (op : Operator) : EvaluationResult :=
  calculate a b op.symbol

/-- Modelled from the spec (for comparison with the source's string dispatch):
the four-branch dispatch over the closed operator enumeration described in
section 4.1, with no unknown-operator fallback. -/
def specDispatch (op : Operator) (a b : PyFloat) : EvaluationResult :=
  match op with
  | .add => .Number (a.add b)
  | .sub => .Number (a.sub b)
  | .mul => .Number (a.mul b)
  | .div => if b.isZero then .DivisionByZero else .Number (a.div b)

/-! The binary64 rounding model: CPython floats are IEEE-754 doubles, so both
the parses and the arithmetic of the source round to 53-bit precision. -/

/-- Fuel-driven bit-counting loop (the fuel is an upper bound on the number of
halvings). -/
def bitLenAux : ℕ → ℕ → ℕ
  | 0, _ => 0
  | fuel + 1, n => if n = 0 then 0 else bitLenAux fuel (n / 2) + 1

/-- The binary digit count of a natural number (0 for 0), so that
2^(bitLen n - 1) ≤ n < 2^(bitLen n) for n > 0. -/
def bitLen (n : ℕ) : ℕ := bitLenAux n n

/-- Round num/den (den > 0) to the nearest natural number, ties to even. -/
def rnte (num den : ℕ) : ℕ :=
  let q := num / den
  let r := num % den
  if 2 * r < den then q
  else if den < 2 * r then q + 1
  else if q % 2 = 0 then q else q + 1

/-- For n, d > 0: the unique e with 2^e ≤ n/d < 2^(e+1). -/
def floorLog2 (n d : ℕ) : ℤ :=
  let a := bitLen n
  let b := bitLen d
  if d * 2 ^ a ≤ n * 2 ^ b then (a : ℤ) - b else (a : ℤ) - b - 1

/-- Powers of two, as rationals. -/
def pow2 : ℕ → ℚ
  | 0 => 1
  | n + 1 => 2 * pow2 n

/-- Round the positive rational n/d to the nearest binary64 value: round to
nearest with ties to even at 53 significant bits, overflow to infinity above
the largest double, gradual underflow at the fixed scale 2^-1074 below the
normal range. -/
def roundPos (n d : ℕ) : PyFloat :=
  let e := floorLog2 n d
  if 1024 ≤ e then PyFloat.inf
  else
    let s : ℤ := if e < -1022 then 1074 else 52 - e
    let m : ℕ := if 0 ≤ s then rnte (n * 2 ^ s.toNat) d else rnte n (d * 2 ^ (-s).toNat)
    if e = 1023 ∧ 2 ^ 53 ≤ m then PyFloat.inf
    else PyFloat.finite (if 0 ≤ s then (m : ℚ) / pow2 s.toNat else (m : ℚ) * pow2 (-s).toNat)

/-- Correct rounding of an exact rational to IEEE-754 binary64, the format of
CPython floats (checked against CPython on random rationals and on the
overflow and subnormal boundaries). -/
def roundF64 (q : ℚ) : PyFloat :=
  if q = 0 then PyFloat.finite 0
  else if 0 < q then roundPos q.num.toNat q.den
  else (roundPos (-q.num).toNat q.den).neg

/-- Round a finite value to binary64; the special values pass through. -/
def roundFin : PyFloat → PyFloat
  | .finite q => roundF64 q
  | r => r

/-- The binary64-faithful model of `float(str)`: the exact parsed value,
correctly rounded to the nearest double as CPython's parser does (so for
example "1e400" gives infinity). -/
def float64? (s : String) : Option PyFloat :=
  match float? s with
  | some v => some (roundFin v)
  | none => none

/-- The operator dispatch of the source with binary64 arithmetic: the finite
result of each exact operation is correctly rounded, which on rounded
operands is exactly IEEE-754 double arithmetic. -/
def dispatch64 (op : String) (a b : PyFloat) : EvaluationResult :=
  if op = "+" then .Number (roundFin (a.add b))
  else if op = "-" then .Number (roundFin (a.sub b))
  else if op = "*" then .Number (roundFin (a.mul b))
  else if op = "/" then
    if b.isZero then .DivisionByZero else .Number (roundFin (a.div b))
  else .UnknownOperator

/-- The source's `calculate` over the binary64 model: like `calculate`, with
the parses and the arithmetic correctly rounded. -/
def calculate64 (sa sb op : String) : EvaluationResult :=
  match float64? (replaceCommas sa), float64? (replaceCommas sb) with
  | some a, some b => dispatch64 op a b
  | _, _ => .InvalidInput

/-- The spec's `evaluate` over the binary64 model. -/
def evaluate64 (a b : String) (op : Operator) : EvaluationResult :=
  calculate64 a b op.symbol

section
-- Batteries marks the arithmetic of `Rat` irreducible; restore plain
-- reducibility so that concrete evaluations go through by kernel reduction.
attribute [local semireducible] Rat.add Rat.mul Rat.inv Rat.sub Rat.ofScientific

-- The reductions through the rounding model (bit counting, large powers) are
-- deep; raise the recursion limit for the concrete evaluations.
set_option maxRecDepth 100000
set_option exponentiation.threshold 2000

-- Sanity checks of the parser model against CPython behavior.
example : float? "2" = some (.finite 2) := by decide
example : float? "3.14" = some (.finite (157 / 50)) := by decide
example : float? "" = none := by decide
example : float? "abc" = none := by decide
example : float? "1.2.3" = none := by decide
example : float? "inf" = some .inf := by decide
example : float? "-Infinity" = some .ninf := by decide
example : float? "nan" = some .nan := by decide
example : float? "1e3" = some (.finite 1000) := by decide
example : float? "1e-2" = some (.finite (1 / 100)) := by decide
example : float? "1_000" = some (.finite 1000) := by decide
example : float? " 1 " = some (.finite 1) := by decide
example : float? "1_" = none := by decide
example : float? "_1" = none := by decide
example : float? "1__0" = none := by decide
example : float? "." = none := by decide
example : float? ".5" = some (.finite (1 / 2)) := by decide
example : float? "1." = some (.finite 1) := by decide
example : float? "e3" = none := by decide
example : float? "-0.0" = some (.finite 0) := by decide
example : float? "+2.5" = some (.finite (5 / 2)) := by decide
example : replaceCommas "3,14" = "3.14" := by decide
example : replaceCommas "1,2,3" = "1.2.3" := by decide

-- Sanity checks of the rounding model against CPython doubles.
example : roundF64 2 = .finite 2 := by decide
example : roundF64 (157 / 50) = .finite (7070651414971679 / 2251799813685248) := by decide
example : float64? "0.1" = some (.finite (3602879701896397 / 36028797018963968)) := by decide
example : float64? "5.14" = some (.finite (5787125521171087 / 1125899906842624)) := by decide
example : float64? "1e400" = some .inf := by decide
example : float64? "-1e400" = some .ninf := by decide

/-! Helper lemmas about `calculate`, `dispatch` and `replaceCommas`. -/

theorem calculate_noneA (sa sb op : String) (h : float? (replaceCommas sa) = none) :
    calculate sa sb op = .InvalidInput := by
  unfold calculate
  rw [h]

theorem calculate_noneB (sa sb op : String) (h : float? (replaceCommas sb) = none) :
    calculate sa sb op = .InvalidInput := by
  unfold calculate
  rw [h]
  cases float? (replaceCommas sa) <;> rfl

theorem calculate_parsed (sa sb op : String) (x y : PyFloat)
    (hA : float? (replaceCommas sa) = some x) (hB : float? (replaceCommas sb) = some y) :
    calculate sa sb op = dispatch op x y := by
  unfold calculate
  rw [hA, hB]

theorem dispatch_symbol (op : Operator) (x y : PyFloat) :
    dispatch op.symbol x y = specDispatch op x y := by
  cases op <;> rfl

theorem evaluate_parsed (a b : String) (op : Operator) (x y : PyFloat)
    (hA : float? (replaceCommas a) = some x) (hB : float? (replaceCommas b) = some y) :
    evaluate a b op = specDispatch op x y :=
  (calculate_parsed a b op.symbol x y hA hB).trans (dispatch_symbol op x y)

theorem mapComma_mapComma (l : List Char) :
    ((l.map fun c => if c = ',' then '.' else c).map fun c => if c = ',' then '.' else c)
      = l.map fun c => if c = ',' then '.' else c := by
  induction l with
  | nil => rfl
  | cons c cs ih =>
      simp only [List.map_cons, List.cons.injEq]
      refine ⟨?_, ih⟩
      by_cases hc : c = ',' <;> simp [hc]

theorem replaceCommas_idem (s : String) :
    replaceCommas (replaceCommas s) = replaceCommas s :=
  congrArg String.mk (mapComma_mapComma s.data)

theorem evaluate_outcomes (a b : String) (op : Operator) :
    evaluate a b op = .InvalidInput ∨ evaluate a b op = .DivisionByZero ∨
      ∃ v, evaluate a b op = .Number v := by
  cases hA : float? (replaceCommas a) with
  | none => exact Or.inl (calculate_noneA a b op.symbol hA)
  | some x =>
    cases hB : float? (replaceCommas b) with
    | none => exact Or.inl (calculate_noneB a b op.symbol hB)
    | some y =>
      have h := evaluate_parsed a b op x y hA hB
      cases op with
      | add => exact Or.inr (Or.inr ⟨x.add y, h⟩)
      | sub => exact Or.inr (Or.inr ⟨x.sub y, h⟩)
      | mul => exact Or.inr (Or.inr ⟨x.mul y, h⟩)
      | div =>
        rw [h]
        by_cases hz : y.isZero = true
        · exact Or.inr (Or.inl (by simp [specDispatch, hz]))
        · exact Or.inr (Or.inr ⟨x.div y, by simp [specDispatch, hz]⟩)

/-! The claims. -/

/-- C1: for every pair of input strings and every operator of the closed
enumeration, `evaluate` returns one of the three specified outcomes — a
number, `DivisionByZero` or `InvalidInput` — so both error conditions are
returned as data values and no other outcome is possible (the embedding is a
total function, the model of the source's never-throwing evaluator). -/
theorem C1_evaluate_total_result (a b : String) (op : Operator) :
    evaluate a b op = .InvalidInput ∨ evaluate a b op = .DivisionByZero ∨
      ∃ v, evaluate a b op = .Number v :=
  evaluate_outcomes a b op

/-- C2: when, after comma normalization, either operand fails to parse as a
Python float, `evaluate` returns `InvalidInput` for every operator, without
performing any arithmetic. -/
theorem C2_unparseable_operand (a b : String) (op : Operator)
    (h : float? (replaceCommas a) = none ∨ float? (replaceCommas b) = none) :
    evaluate a b op = .InvalidInput := by
  rcases h with h | h
  · exact calculate_noneA a b op.symbol h
  · exact calculate_noneB a b op.symbol h

/-- C2 witness: the spec's two examples, with the hypothesis discharged at the
concrete inputs. -/
theorem C2_unparseable_operand_witness :
    float? (replaceCommas "abc") = none ∧
      evaluate "abc" "2" Operator.add = .InvalidInput ∧
      evaluate "" "2" Operator.mul = .InvalidInput :=
  ⟨by decide, C2_unparseable_operand "abc" "2" Operator.add (Or.inl (by decide)),
    C2_unparseable_operand "" "2" Operator.mul (Or.inl (by decide))⟩

/-- C3: when both operands parse, `Divide` returns `DivisionByZero` exactly
when the divisor compares equal to zero, and the quotient otherwise. -/
theorem C3_divide (a b : String) (x y : PyFloat)
    (hA : float? (replaceCommas a) = some x) (hB : float? (replaceCommas b) = some y) :
    evaluate a b Operator.div = if y.isZero then .DivisionByZero else .Number (x.div y) :=
  evaluate_parsed a b Operator.div x y hA hB

/-- C3 witness: `evaluate("5","0",Divide)` is `DivisionByZero` and
`evaluate("10","4",Divide)` is `Number(2.5)`. -/
theorem C3_divide_witness :
    evaluate "5" "0" Operator.div = .DivisionByZero ∧
      evaluate "10" "4" Operator.div = .Number (.finite (5 / 2)) := by
  constructor
  · rw [C3_divide "5" "0" (.finite 5) (.finite 0) (by decide) (by decide)]
    decide
  · rw [C3_divide "10" "4" (.finite 10) (.finite 4) (by decide) (by decide)]
    decide

/-- C4: when both operands parse, `Add`, `Subtract` and `Multiply` return the
`Number` of the sum, difference and product of the parsed values. -/
theorem C4_add_sub_mul (a b : String) (x y : PyFloat)
    (hA : float? (replaceCommas a) = some x) (hB : float? (replaceCommas b) = some y) :
    evaluate a b Operator.add = .Number (x.add y) ∧
      evaluate a b Operator.sub = .Number (x.sub y) ∧
      evaluate a b Operator.mul = .Number (x.mul y) :=
  ⟨evaluate_parsed a b Operator.add x y hA hB,
    evaluate_parsed a b Operator.sub x y hA hB,
    evaluate_parsed a b Operator.mul x y hA hB⟩

/-- C4 witness: the three operators evaluated at the operands 1 and 2. -/
theorem C4_add_sub_mul_witness :
    evaluate "1" "2" Operator.add = .Number (.finite 3) ∧
      evaluate "1" "2" Operator.sub = .Number (.finite (-1)) ∧
      evaluate "1" "2" Operator.mul = .Number (.finite 2) := by
  obtain ⟨h1, h2, h3⟩ := C4_add_sub_mul "1" "2" (.finite 1) (.finite 2) (by decide) (by decide)
  exact ⟨by rw [h1]; decide, by rw [h2]; decide, by rw [h3]; decide⟩

/-- C5: the invalid-input check happens before operator dispatch: an
unparseable first operand gives `InvalidInput` for every operator even when
the divisor string is the literal "0". -/
theorem C5_invalid_before_dispatch (a : String) (op : Operator)
    (h : float? (replaceCommas a) = none) :
    evaluate a "0" op = .InvalidInput :=
  calculate_noneA a "0" op.symbol h

/-- C5 witness: `evaluate("abc","0",Divide)` is `InvalidInput` (hence not
`DivisionByZero`). -/
theorem C5_invalid_before_dispatch_witness :
    float? (replaceCommas "abc") = none ∧
      evaluate "abc" "0" Operator.div = .InvalidInput :=
  ⟨by decide, C5_invalid_before_dispatch "abc" Operator.div (by decide)⟩

/-- C6 counterexample: the claim's asserted value `Number(5.14)` is false of
the program's binary64 arithmetic. `float("5.14")` is the double
5787125521171087/2^50, but evaluating "3,14" + "2" computes the doubles
3.14 + 2 and rounds the sum to 5787125521171088/2^50 — one ulp higher
(Python displays it as 5.140000000000001, and `3.14 + 2 == 5.14` is false).
The result also differs from the exact decimal 257/50. -/
theorem C6_decimal_comma_counterexample :
    float64? "5.14" = some (.finite (5787125521171087 / 1125899906842624)) ∧
      evaluate64 "3,14" "2" Operator.add
        = .Number (.finite (5787125521171088 / 1125899906842624)) ∧
      (evaluate64 "3,14" "2" Operator.add
        = .Number (.finite (5787125521171087 / 1125899906842624))) = False ∧
      (evaluate64 "3,14" "2" Operator.add = .Number (.finite (257 / 50))) = False :=
  ⟨by decide, by decide, eq_false (by decide), eq_false (by decide)⟩

/-- C6 (amended): operands are normalized by turning every comma into a
period before parsing, so a decimal-comma operand evaluates identically to
its decimal-point spelling — pre-normalizing the operands changes nothing
and `evaluate("3,14","2",Add)` equals `evaluate("3.14","2",Add)`. Their
common value is the binary64 sum 3.14 + 2 = 5787125521171088/2^50
(displayed 5.140000000000001), one ulp above `float("5.14")`, not
`Number(5.14)`. -/
theorem C6_comma_normalization_binary64 :
    (∀ (a b : String) (op : Operator),
        evaluate64 (replaceCommas a) (replaceCommas b) op = evaluate64 a b op) ∧
      evaluate64 "3,14" "2" Operator.add = evaluate64 "3.14" "2" Operator.add ∧
      evaluate64 "3,14" "2" Operator.add
        = .Number (.finite (5787125521171088 / 1125899906842624)) := by
  refine ⟨?_, by decide, by decide⟩
  intro a b op
  unfold evaluate64 calculate64
  rw [replaceCommas_idem, replaceCommas_idem]

/-- C7: `evaluate` is deterministic (and pure, being a function of its
arguments alone): two evaluations of the same inputs yield identical results. -/
theorem C7_deterministic (a b : String) (op : Operator) (r₁ r₂ : EvaluationResult)
    (h₁ : evaluate a b op = r₁) (h₂ : evaluate a b op = r₂) : r₁ = r₂ :=
  h₁.symm.trans h₂

/-- C7 witness: the two results of evaluating 1 + 2 twice coincide. -/
theorem C7_deterministic_witness :
    evaluate "1" "2" Operator.add = evaluate "1" "2" Operator.add :=
  C7_deterministic "1" "2" Operator.add
    (evaluate "1" "2" Operator.add) (evaluate "1" "2" Operator.add) rfl rfl

/-- C8: the operator type is a closed enumeration of exactly the four
operators: for every operator of the type, the source's string dispatch
coincides with the spec's four-branch closed dispatch, and every evaluation
lands in one of the three specified outcomes — the defensive
unknown-operator fallback branch is never the result. -/
theorem C8_closed_operator_enumeration (op : Operator) (x y : PyFloat) (a b : String) :
    dispatch op.symbol x y = specDispatch op x y ∧
      (evaluate a b op = .InvalidInput ∨ evaluate a b op = .DivisionByZero ∨
        ∃ v, evaluate a b op = .Number v) :=
  ⟨dispatch_symbol op x y, evaluate_outcomes a b op⟩

/-- C9: parsing accepts the full Python float grammar, not only plain decimal
numerals: `inf`, `nan`, scientific notation, digit-group underscores and
surrounding whitespace all yield `Number` results rather than `InvalidInput`. -/
theorem C9_float_grammar_beyond_decimals :
    evaluate "inf" "2" Operator.add = .Number .inf ∧
      evaluate "nan" "2" Operator.add = .Number .nan ∧
      evaluate "1e3" "2" Operator.add = .Number (.finite 1002) ∧
      evaluate "1_000" "2" Operator.add = .Number (.finite 1002) ∧
      evaluate " 1 " "2" Operator.add = .Number (.finite 3) := by
  refine ⟨by decide, by decide, by decide, by decide, by decide⟩

/-- C10: a thousands-separator comma is reinterpreted as a decimal point
("1,000" evaluates as 1.0, so adding 1 gives 2.0 rather than 1001.0), while
an operand with two or more commas fails to parse and gives `InvalidInput`. -/
theorem C10_thousands_separator :
    evaluate "1,000" "1" Operator.add = .Number (.finite 2) ∧
      evaluate "1,2,3" "1" Operator.add = .InvalidInput := by
  refine ⟨by decide, by decide⟩

end
